import Mathlib

/-!
Verification of the wind data server (server.js): cycle-time resolution,
dataset cache, fetch-convert pipeline, refresh scheduler and query handlers.
Instants are modelled as milliseconds since the Unix epoch (Int), matching
the millisecond arithmetic of the moment library used by the source. All
integer division below is Euclidean (the `/` and `%` of Int), which agrees
with the civil-calendar behaviour of the library for the positive divisors
used here.
The repository holds two near-duplicate variants of the server; definitions
are suffixed V1 (first variant) and V2 (second variant) wherever they
differ, and shared otherwise.
-/

/-- APPROX_PUBLISH_DELAY_MS of the first variant; the second variant uses
moment.duration(3.7, "h"), the same 13320000 ms (3 hours 42 minutes). -/
def APPROX_PUBLISH_DELAY_MS : Int := 13320000

/-- Civil UTC hour of day (0..23) of an instant, as moment hour() in utc mode. -/
def hourOfDay (t : Int) : Int := (t % 86400000) / 3600000

/-- Start of the UTC day containing the instant. -/
def dayStart (t : Int) : Int := 86400000 * (t / 86400000)

/-- Numeric value of getClosestInterval, Math.floor(hours / 6) * 6,
applied to the civil hour of the instant. -/
def cycleHourOf (t : Int) : Int := 6 * (hourOfDay t / 6)

/-- Left-pad the decimal representation of a natural number with zeros,
as String(x).padStart(w, "0"). -/
def padNum (w : Nat) (n : Nat) : String :=
  let s := toString n
  String.mk (List.replicate (w - s.length) '0') ++ s

/-- getClosestInterval of the first variant: padded two-character string. -/
def getClosestIntervalV1 (hours : Int) : String :=
  padNum 2 (6 * (hours / 6)).toNat

/-- getClosestInterval of the second variant: a result below 10 gets a
leading zero prepended, otherwise the bare decimal digits are rendered. -/
def getClosestIntervalV2 (hours : Int) : String :=
  if 6 * (hours / 6) < 10 then "0" ++ toString (6 * (hours / 6))
  else toString (6 * (hours / 6))

/-- Proleptic Gregorian civil date (year, month, day) from a count of days
since 1970-01-01: the standard days-to-civil algorithm used by calendar
libraries (all divisions Euclidean with positive divisors). -/
def civilFromDays (z : Int) : Int × Int × Int :=
  let z' := z + 719468
  let era := z' / 146097
  let doe := z' - era * 146097
  let yoe := (doe - doe / 1460 + doe / 36524 - doe / 146096) / 365
  let y := yoe + era * 400
  let doy := doe - (365 * yoe + yoe / 4 - yoe / 100)
  let mp := (5 * doy + 2) / 153
  let d := doy - (153 * mp + 2) / 5 + 1
  let m := mp + (if mp < 10 then 3 else -9)
  (y + (if m ≤ 2 then 1 else 0), m, d)

/-- moment format("YYYYMMDD") of an instant. -/
def fmtYYYYMMDD (t : Int) : String :=
  let c := civilFromDays (t / 86400000)
  padNum 4 c.1.toNat ++ padNum 2 c.2.1.toNat ++ padNum 2 c.2.2.toNat

/-- moment format("HH") of an instant. -/
def fmtHH (t : Int) : String := padNum 2 (hourOfDay t).toNat

/-- Result moment (ms) of getNearestPublishedTime in the FIRST variant
(lines 159-176): truncate the query instant to its 6-hour bucket start
(minutes, seconds, milliseconds zeroed) and step back one bucket when the
CURRENT WALL CLOCK is within APPROX_PUBLISH_DELAY_MS of the bucket start;
the source compares against moment(), not against the query instant. -/
def resolvedMsV1 (now t : Int) : Int :=
  if now - (dayStart t + cycleHourOf t * 3600000) < 13320000 then
    dayStart t + cycleHourOf t * 3600000 - 6 * 3600000
  else
    dayStart t + cycleHourOf t * 3600000

/-- Result moment (ms) of getNearestPublishedTime in the SECOND variant
(lines 470-489): build the candidate publish moment by setting minutes to
42 and the hour to bucket hour plus 3 on the query instant (seconds and
milliseconds retained), and step back 6 hours when that candidate is
strictly after the query instant itself. -/
def resolvedMsV2 (t : Int) : Int :=
  if dayStart t + (cycleHourOf t + 3) * 3600000 + 42 * 60000 + t % 60000 > t then
    dayStart t + (cycleHourOf t + 3) * 3600000 + 42 * 60000 + t % 60000 - 6 * 3600000
  else
    dayStart t + (cycleHourOf t + 3) * 3600000 + 42 * 60000 + t % 60000

/-- Return value of getNearestPublishedTime: hour, date and timestamp
strings plus the underlying moment in ms (the second variant exposes the
moment too; carrying it for both variants is harmless). -/
structure ResolvedTime where
  ms : Int
  hour : String
  date : String
  timestamp : String
deriving DecidableEq

/-- getNearestPublishedTime, first variant: the result moment is the chosen
bucket start; hour, date and timestamp are its HH, YYYYMMDD and YYYYMMDDHH
formats. Takes the wall clock now explicitly because the source reads
moment() inside. -/
def getNearestPublishedTimeV1 (now t : Int) : ResolvedTime :=
  { ms := resolvedMsV1 now t
    hour := fmtHH (resolvedMsV1 now t)
    date := fmtYYYYMMDD (resolvedMsV1 now t)
    timestamp := fmtYYYYMMDD (resolvedMsV1 now t) ++ fmtHH (resolvedMsV1 now t) }

/-- getNearestPublishedTime, second variant: the hour is getClosestInterval
of the publish moment hour, the date its YYYYMMDD format, the timestamp
their concatenation. -/
def getNearestPublishedTimeV2 (t : Int) : ResolvedTime :=
  { ms := resolvedMsV2 t
    hour := getClosestIntervalV2 (hourOfDay (resolvedMsV2 t))
    date := fmtYYYYMMDD (resolvedMsV2 t)
    timestamp := fmtYYYYMMDD (resolvedMsV2 t) ++ getClosestIntervalV2 (hourOfDay (resolvedMsV2 t)) }

/-- The publish instant of the cycle named by a result moment: the bucket
start encoded in its date and closest-interval hour, plus the publish delay. -/
def publishInstantOf (m : Int) : Int :=
  dayStart m + cycleHourOf m * 3600000 + 13320000

/-- getJsonFilePath: JSON_DATA_DIR/timestamp.json. -/
def getJsonFilePath (ts : String) : String := "json/" ++ ts ++ ".json"

/-- getIncrementalArray: the list 0, increment, 2*increment, ... of the
given length (defaults in the source: KEEP_LAST_N_DATASETS = 5, 6). -/
def getIncrementalArray (amount : Nat) (increment : Int) : List Int :=
  (List.range amount).map (fun i => (i : Int) * increment)

/-- Outcome signalled by the GFS download in getGribData: HTTP 200 (ok),
HTTP 404 (notFound: the source only logs, settling neither handler), or a
transport or other status error (rejected). -/
inductive FetchOutcome
  | ok
  | notFound
  | rejected
deriving DecidableEq

/-- Observable pipeline and cache state: timestamps with a converted JSON
artifact (json directory), timestamps with a raw grib file (grib
directory), and invocation counters for the two collaborators. -/
structure PState where
  json : List String
  grib : List String
  fetchN : Nat
  convN : Nat
deriving DecidableEq

/-- convertGribToJson on the data for a timestamp: invokes the converter
(counter increments); on success the JSON artifact appears and the whole
grib directory is cleared (rm grib/*); on failure the error is only
logged, so the raw grib data stays and the json state is untouched. -/
def convertGribToJson (cOk : String → Bool) (ts : String) (s : PState) : PState :=
  if cOk ts then
    { json := ts :: s.json, grib := [], fetchN := s.fetchN, convN := s.convN + 1 }
  else
    { s with convN := s.convN + 1 }

/-- Body of maybeFetchGribData after cycle resolution, identical in both
variants: return unchanged if the JSON artifact exists; else convert an
existing grib file; else invoke getGribData (counter increments) and, on
HTTP 200, persist the grib file and convert it. On HTTP 404 the download
promise settles neither way and on rejection the error is only logged, so
in both cases nothing further happens. -/
def maybeFetchCore (fOk : String → FetchOutcome) (cOk : String → Bool)
    (ts : String) (s : PState) : PState :=
  if ts ∈ s.json then s
  else if ts ∈ s.grib then convertGribToJson cOk ts s
  else
    match fOk ts with
    | .ok => convertGribToJson cOk ts { s with grib := ts :: s.grib, fetchN := s.fetchN + 1 }
    | .notFound => { s with fetchN := s.fetchN + 1 }
    | .rejected => { s with fetchN := s.fetchN + 1 }

/-- maybeFetchGribData of the first variant: resolve the target time with
the wall-clock-dependent resolver, then run the shared body. -/
def maybeFetchGribData (fOk : String → FetchOutcome) (cOk : String → Bool)
    (now t : Int) (s : PState) : PState :=
  maybeFetchCore fOk cOk (getNearestPublishedTimeV1 now t).timestamp s

/-- maybeFetchGribData of the second variant: resolve with the
query-instant resolver, then run the shared body. -/
def maybeFetchGribDataV2 (fOk : String → FetchOutcome) (cOk : String → Bool)
    (t : Int) (s : PState) : PState :=
  maybeFetchCore fOk cOk (getNearestPublishedTimeV2 t).timestamp s

/-- The keep list built by deleteOlderData: JSON file paths of the cycles
resolved at now minus 0, 6, 12, 18, 24 hours (first variant resolver; the
wall clock and the target time both come from moment.utc()). -/
def lastDataCyclesFiles (now : Int) : List String :=
  (getIncrementalArray 5 6).map
    (fun hrs => getJsonFilePath (getNearestPublishedTimeV1 now (now - hrs * 3600000)).timestamp)

/-- Eviction loop of deleteOlderData over an explicit keep list: every
entry of the json directory whose path is not in the keep list is
unlinked. -/
def deleteOlderDataCore (keepFiles : List String) (s : PState) : PState :=
  { s with json := s.json.filter (fun ts => decide (getJsonFilePath ts ∈ keepFiles)) }

/-- deleteOlderData: evict everything outside the freshly computed
five-cycle keep list. -/
def deleteOlderData (now : Int) (s : PState) : PState :=
  deleteOlderDataCore (lastDataCyclesFiles now) s

/-- One periodic scheduler tick (setInterval body, both variants):
maybeFetchGribData with the default argument moment.utc(), then
deleteOlderData. -/
def schedulerTick (fOk : String → FetchOutcome) (cOk : String → Bool)
    (now : Int) (s : PState) : PState :=
  deleteOlderData now (maybeFetchGribData fOk cOk now now s)

/-- Startup pass (both variants): maybeFetchGribData for now minus 0, 6,
12, 18, 24 hours, in order. -/
def startupFetch (fOk : String → FetchOutcome) (cOk : String → Bool)
    (now : Int) (s : PState) : PState :=
  (getIncrementalArray 5 6).foldl
    (fun st hrs => maybeFetchGribData fOk cOk now (now - hrs * 3600000) st) s

/-- Response body shapes used by the two HTTP handlers. -/
inductive RespBody
  | errBody (msg : String)
  | msgBody (msg : String)
  | dataBody (data : String) (timestamp : String)
  | rawBody (data : String)
deriving DecidableEq

/-- An HTTP response: status code and body. -/
structure HttpResponse where
  status : Nat
  body : RespBody
deriving DecidableEq

/-- GET /GetWindData handler of the first (express) variant. The parse
collaborator models moment ISO-8601 validation and parsing (none when the
parameter is missing or invalid); the content collaborator models reading
an existing artifact file (read errors of existing files not modelled). -/
def handleGetWindData (parse : String → Option Int) (content : String → String)
    (now : Int) (s : PState) (q : Option String) : HttpResponse :=
  match q.bind parse with
  | none =>
      { status := 400
        body := .errBody "Provide a valid isoTimestamp query parameter to get wind forecast data." }
  | some t =>
      if (getNearestPublishedTimeV1 now t).timestamp ∈ s.json then
        { status := 200
          body := .dataBody (content (getNearestPublishedTimeV1 now t).timestamp)
            (getNearestPublishedTimeV1 now t).timestamp }
      else
        { status := 404, body := .errBody "Theres no data for the specified time." }

/-- Request handler of the second (http.createServer) variant: it calls
writeHead(200) before any check, answers the invalid-parameter case with a
message body, the missing-artifact case with an error body, and pipes the
raw artifact file (no timestamp field) when it exists. -/
def handleHttpRequest (parse : String → Option Int) (content : String → String)
    (s : PState) (q : Option String) : HttpResponse :=
  match q.bind parse with
  | none =>
      { status := 200
        body := .msgBody "Provide a valid isoTimestamp query parameter to get wind forecast data." }
  | some t =>
      if (getNearestPublishedTimeV2 t).timestamp ∈ s.json then
        { status := 200, body := .rawBody (content (getNearestPublishedTimeV2 t).timestamp) }
      else
        { status := 200, body := .errBody "Theres no data for the specified time." }

/-- What a reader observes when opening the JSON artifact of a cycle. -/
inductive ReadView
  | absent
  | halfWritten
  | completeView
deriving DecidableEq

/-- Filesystem state for one fixed cycle in the interleaving model: json
is true when the complete artifact file exists, jsonPart when the file
exists but the converter is still writing it (the converter writes its
output directly at the final path; no temporary file and no rename exist
anywhere in the source), grib when the raw file exists. -/
structure WSys where
  json : Bool
  jsonPart : Bool
  grib : Bool
  fetchN : Nat
  convN : Nat
deriving DecidableEq

/-- Program counter of one in-flight maybeFetchGribData attempt for the
fixed cycle: the synchronous entry check, awaiting the download, invoking
the converter (which creates the output file), awaiting the converter, and
settled. -/
inductive AttemptPc
  | start
  | fetchWait
  | convertBegin
  | convertWait
  | finished
deriving DecidableEq

/-- fs.existsSync on the JSON artifact path: true as soon as the file has
been created, complete or not. -/
def existsJson (s : WSys) : Bool := s.json || s.jsonPart

/-- Reading the JSON artifact file. -/
def readJson (s : WSys) : ReadView :=
  if s.json then .completeView else if s.jsonPart then .halfWritten else .absent

/-- One step of one maybeFetchGribData attempt in the interleaving model,
driven by the fetch and converter outcomes for the fixed cycle. -/
def stepAttempt (fOk cOk : Bool) (p : AttemptPc) (s : WSys) : AttemptPc × WSys :=
  match p with
  | .start =>
      if existsJson s then (.finished, s)
      else if s.grib then (.convertBegin, s)
      else (.fetchWait, { s with fetchN := s.fetchN + 1 })
  | .fetchWait =>
      if fOk then (.convertBegin, { s with grib := true })
      else (.finished, s)
  | .convertBegin => (.convertWait, { s with convN := s.convN + 1, jsonPart := true })
  | .convertWait =>
      if cOk then (.finished, { s with jsonPart := false, json := true, grib := false })
      else (.finished, { s with jsonPart := false })
  | .finished => (.finished, s)

/-- Two concurrent attempts for the same cycle over the shared state. -/
structure TwoAttempts where
  sys : WSys
  p1 : AttemptPc
  p2 : AttemptPc
deriving DecidableEq

/-- Advance attempt 1 (true) or attempt 2 (false) one step. -/
def stepTask (fOk cOk : Bool) (i : Bool) (st : TwoAttempts) : TwoAttempts :=
  if i then
    { st with p1 := (stepAttempt fOk cOk st.p1 st.sys).1, sys := (stepAttempt fOk cOk st.p1 st.sys).2 }
  else
    { st with p2 := (stepAttempt fOk cOk st.p2 st.sys).1, sys := (stepAttempt fOk cOk st.p2 st.sys).2 }

/-- Run an explicit interleaving schedule. -/
def runSched (fOk cOk : Bool) (sched : List Bool) (st : TwoAttempts) : TwoAttempts :=
  sched.foldl (fun acc i => stepTask fOk cOk i acc) st

/-- Collaborator double: every fetch succeeds. -/
def fetchAllOk : String → FetchOutcome := fun _ => .ok

/-- Collaborator double: every fetch reports HTTP 404. -/
def fetchAll404 : String → FetchOutcome := fun _ => .notFound

/-- Collaborator double: every conversion succeeds. -/
def convAllOk : String → Bool := fun _ => true

/-- Collaborator double: every conversion fails. -/
def convAllFail : String → Bool := fun _ => false

/-- Empty pipeline state. -/
def emptyP : PState := { json := [], grib := [], fetchN := 0, convN := 0 }

/-- State with only the raw grib file for cycle 2024010418 present. -/
def gribOnlyP : PState := { json := [], grib := ["2024010418"], fetchN := 0, convN := 0 }

/-- State with only the artifact for cycle 2024010100 ready. -/
def readyP : PState := { json := ["2024010100"], grib := [], fetchN := 0, convN := 0 }

/-- State with only the artifact for cycle 2024010418 ready. -/
def readyWarm : PState := { json := ["2024010418"], grib := [], fetchN := 0, convN := 0 }

/-- Parse collaborator double recognising the single ISO string of the
spec scenario, 2024-01-01T05:00:00Z, as 1704085200000 ms. -/
def parseIsoScenario : String → Option Int :=
  fun str => if str = "2024-01-01T05:00:00Z" then some 1704085200000 else none

/-- Content collaborator double. -/
def contentConst : String → String := fun _ => "winddata"

/-- Both attempts of the interleaving model pending on an empty filesystem. -/
def wBoth : TwoAttempts :=
  { sys := { json := false, jsonPart := false, grib := false, fetchN := 0, convN := 0 }
    p1 := .start, p2 := .start }

/-- A single pending attempt on an empty filesystem (second slot settled). -/
def wOne : TwoAttempts :=
  { sys := { json := false, jsonPart := false, grib := false, fetchN := 0, convN := 0 }
    p1 := .start, p2 := .finished }

/-- The civil-date algorithm agrees with the known calendar on the epoch
day and on the two dates of the worked scenarios. -/
theorem civilFromDays_checks :
    civilFromDays 0 = (1970, 1, 1) ∧ civilFromDays 19723 = (2024, 1, 1) ∧
    civilFromDays 19722 = (2023, 12, 31) := by
  refine ⟨by decide, by decide, by decide⟩

/-- Characterisation of Euclidean division by a positive divisor. -/
theorem edivmodChar (a b q r : Int) (hb : 0 < b) (h : r + b * q = a)
    (h0 : 0 ≤ r) (h1 : r < b) : a / b = q ∧ a % b = r :=
  (Int.ediv_emod_unique hb).mpr ⟨h, h0, h1⟩

/-- C1 (amended): the publish instant of the resolved cycle never exceeds
the query instant for the second variant of getNearestPublishedTime,
unconditionally; for the first variant, which compares against the current
wall clock, the invariant holds whenever the resolution runs at a
wall-clock instant now with now ≤ t. -/
theorem claimC1_resolver_publish_invariant :
    (∀ t : Int, publishInstantOf (getNearestPublishedTimeV2 t).ms ≤ t) ∧
    (∀ now t : Int, now ≤ t → publishInstantOf (getNearestPublishedTimeV1 now t).ms ≤ t) := by
  constructor
  · intro t
    show publishInstantOf (resolvedMsV2 t) ≤ t
    unfold resolvedMsV2 publishInstantOf cycleHourOf hourOfDay dayStart
    obtain ⟨q, r, ht, hr0, hr1⟩ : ∃ q r : Int, t = 86400000 * q + r ∧ 0 ≤ r ∧ r < 86400000 :=
      ⟨t / 86400000, t % 86400000, by omega, by omega, by omega⟩
    obtain ⟨v, u, htu, hu0, hu1⟩ : ∃ v u : Int, t = 60000 * v + u ∧ 0 ≤ u ∧ u < 60000 :=
      ⟨t / 60000, t % 60000, by omega, by omega, by omega⟩
    have e1 := edivmodChar t 86400000 q r (by norm_num) (by omega) hr0 hr1
    have e4 := edivmodChar t 60000 v u (by norm_num) (by omega) hu0 hu1
    rw [e1.1, e1.2, e4.2]
    obtain ⟨h, r2, hrr, hr20, hr21⟩ : ∃ h r2 : Int, r = 3600000 * h + r2 ∧ 0 ≤ r2 ∧ r2 < 3600000 :=
      ⟨r / 3600000, r % 3600000, by omega, by omega, by omega⟩
    have e2 := edivmodChar r 3600000 h r2 (by norm_num) (by omega) hr20 hr21
    rw [e2.1]
    obtain ⟨k, h2, hhh, hh20, hh21⟩ : ∃ k h2 : Int, h = 6 * k + h2 ∧ 0 ≤ h2 ∧ h2 < 6 :=
      ⟨h / 6, h % 6, by omega, by omega, by omega⟩
    have e3 := edivmodChar h 6 k h2 (by norm_num) (by omega) hh20 hh21
    rw [e3.1]
    split
    case isTrue hgt =>
      rcases (by omega : k = 0 ∨ 1 ≤ k) with hk | hk
      · have f1 := edivmodChar (86400000 * q + (6 * k + 3) * 3600000 + 42 * 60000 + u - 6 * 3600000)
          86400000 (q - 1) (78120000 + u) (by norm_num) (by omega) (by omega) (by omega)
        rw [f1.1, f1.2]
        have f2 := edivmodChar (78120000 + u) 3600000 21 (2520000 + u) (by norm_num) (by omega)
          (by omega) (by omega)
        rw [f2.1]
        have f3 : (21 : Int) / 6 = 3 := by decide
        rw [f3]
        omega
      · have f1 := edivmodChar (86400000 * q + (6 * k + 3) * 3600000 + 42 * 60000 + u - 6 * 3600000)
          86400000 q ((6 * k - 3) * 3600000 + 42 * 60000 + u) (by norm_num) (by omega) (by omega)
          (by omega)
        rw [f1.1, f1.2]
        have f2 := edivmodChar ((6 * k - 3) * 3600000 + 42 * 60000 + u) 3600000 (6 * k - 3)
          (42 * 60000 + u) (by norm_num) (by omega) (by omega) (by omega)
        rw [f2.1]
        have f3 := edivmodChar (6 * k - 3) 6 (k - 1) 3 (by norm_num) (by omega) (by omega) (by omega)
        rw [f3.1]
        omega
    case isFalse hle =>
      have f1 := edivmodChar (86400000 * q + (6 * k + 3) * 3600000 + 42 * 60000 + u)
        86400000 q ((6 * k + 3) * 3600000 + 42 * 60000 + u) (by norm_num) (by omega) (by omega)
        (by omega)
      rw [f1.1, f1.2]
      have f2 := edivmodChar ((6 * k + 3) * 3600000 + 42 * 60000 + u) 3600000 (6 * k + 3)
        (42 * 60000 + u) (by norm_num) (by omega) (by omega) (by omega)
      rw [f2.1]
      have f3 := edivmodChar (6 * k + 3) 6 k 3 (by norm_num) (by omega) (by omega) (by omega)
      rw [f3.1]
      omega
  · intro now t hnt
    show publishInstantOf (resolvedMsV1 now t) ≤ t
    unfold resolvedMsV1 publishInstantOf cycleHourOf hourOfDay dayStart
    obtain ⟨q, r, ht, hr0, hr1⟩ : ∃ q r : Int, t = 86400000 * q + r ∧ 0 ≤ r ∧ r < 86400000 :=
      ⟨t / 86400000, t % 86400000, by omega, by omega, by omega⟩
    have e1 := edivmodChar t 86400000 q r (by norm_num) (by omega) hr0 hr1
    rw [e1.1, e1.2]
    obtain ⟨h, r2, hrr, hr20, hr21⟩ : ∃ h r2 : Int, r = 3600000 * h + r2 ∧ 0 ≤ r2 ∧ r2 < 3600000 :=
      ⟨r / 3600000, r % 3600000, by omega, by omega, by omega⟩
    have e2 := edivmodChar r 3600000 h r2 (by norm_num) (by omega) hr20 hr21
    rw [e2.1]
    obtain ⟨k, h2, hhh, hh20, hh21⟩ : ∃ k h2 : Int, h = 6 * k + h2 ∧ 0 ≤ h2 ∧ h2 < 6 :=
      ⟨h / 6, h % 6, by omega, by omega, by omega⟩
    have e3 := edivmodChar h 6 k h2 (by norm_num) (by omega) hh20 hh21
    rw [e3.1]
    split
    case isTrue hgt =>
      rcases (by omega : k = 0 ∨ 1 ≤ k) with hk | hk
      · have f1 := edivmodChar (86400000 * q + 6 * k * 3600000 - 6 * 3600000)
          86400000 (q - 1) 64800000 (by norm_num) (by omega) (by omega) (by omega)
        rw [f1.1, f1.2]
        have f2 : (64800000 : Int) / 3600000 = 18 := by decide
        rw [f2]
        have f3 : (18 : Int) / 6 = 3 := by decide
        rw [f3]
        omega
      · have f1 := edivmodChar (86400000 * q + 6 * k * 3600000 - 6 * 3600000)
          86400000 q (6 * k * 3600000 - 21600000) (by norm_num) (by omega) (by omega) (by omega)
        rw [f1.1, f1.2]
        have f2 := edivmodChar (6 * k * 3600000 - 21600000) 3600000 (6 * k - 6) 0
          (by norm_num) (by omega) (by omega) (by omega)
        rw [f2.1]
        have f3 := edivmodChar (6 * k - 6) 6 (k - 1) 0 (by norm_num) (by omega) (by omega) (by omega)
        rw [f3.1]
        omega
    case isFalse hle =>
      have f1 := edivmodChar (86400000 * q + 6 * k * 3600000)
        86400000 q (6 * k * 3600000) (by norm_num) (by omega) (by omega) (by omega)
      rw [f1.1, f1.2]
      have f2 := edivmodChar (6 * k * 3600000) 3600000 (6 * k) 0
        (by norm_num) (by omega) (by omega) (by omega)
      rw [f2.1]
      have f3 := edivmodChar (6 * k) 6 k 0 (by norm_num) (by omega) (by omega) (by omega)
      rw [f3.1]
      omega

/-- C1 witness: both parts at concrete instants (2024-01-01T02:00:00Z,
resolved at that same wall-clock instant for the first variant). -/
theorem claimC1_witness :
    publishInstantOf (getNearestPublishedTimeV2 1704074400000).ms ≤ 1704074400000 ∧
    publishInstantOf (getNearestPublishedTimeV1 1704074400000 1704074400000).ms ≤ 1704074400000 :=
  ⟨claimC1_resolver_publish_invariant.1 1704074400000,
   claimC1_resolver_publish_invariant.2 1704074400000 1704074400000 (le_refl 1704074400000)⟩

/-- C1 counterexample: the first variant resolving the query instant
2024-01-01T02:00:00Z at wall clock 2024-01-05T00:00:00Z returns the cycle
whose publish instant (2024-01-01T03:42Z) is strictly after the query
instant. -/
theorem claimC1_counterexample :
    1704074400000 < publishInstantOf (getNearestPublishedTimeV1 1704412800000 1704074400000).ms := by
  decide

/-- C2 (amended): the second variant returns exactly the claimed cycle
identifiers on the two worked inputs; the first variant returns them only
when the wall clock at resolution time lies on the matching side of the
publish instant 2024-01-01T03:42Z (at or after it for the 05:00 input,
strictly before it for the 02:00 input; below: wall clocks 04:00 and
03:00). -/
theorem claimC2_worked_scenarios :
    (getNearestPublishedTimeV2 1704085200000).timestamp = "2024010100" ∧
    (getNearestPublishedTimeV2 1704074400000).timestamp = "2023123118" ∧
    (getNearestPublishedTimeV1 1704081600000 1704085200000).timestamp = "2024010100" ∧
    (getNearestPublishedTimeV1 1704078000000 1704074400000).timestamp = "2023123118" := by
  refine ⟨?_, ?_, ?_, ?_⟩ <;> decide

/-- C2 counterexample: the first variant resolving 2024-01-01T02:00:00Z at
wall clock 2024-01-05T00:00:00Z returns 2024010100, not the claimed
2023123118. -/
theorem claimC2_counterexample :
    (getNearestPublishedTimeV1 1704412800000 1704074400000).timestamp = "2024010100" ∧
    (getNearestPublishedTimeV1 1704412800000 1704074400000).timestamp ≠ "2023123118" := by
  refine ⟨by decide, by decide⟩

/-- String append acts as list append on the underlying character data. -/
theorem strDataAppend (s t : String) : (s ++ t).data = s.data ++ t.data := by
  cases s; cases t; rfl

/-- getJsonFilePath is injective: distinct timestamps give distinct paths. -/
theorem getJsonFilePath_injective {a b : String}
    (h : getJsonFilePath a = getJsonFilePath b) : a = b := by
  unfold getJsonFilePath at h
  have hd := congrArg String.data h
  simp only [strDataAppend, List.append_assoc] at hd
  exact String.ext (List.append_cancel_right (List.append_cancel_left hd))

/-- The warm-cache early return of maybeFetchGribData: when the artifact
for the resolved timestamp exists, the state is returned unchanged. -/
theorem maybeFetchCore_warm (fOk : String → FetchOutcome) (cOk : String → Bool)
    (ts : String) (s : PState) (h : ts ∈ s.json) : maybeFetchCore fOk cOk ts s = s := by
  unfold maybeFetchCore
  rw [if_pos h]

/-- C3: the ensure operation is idempotent on a warm cache. First part:
when the resolved cycle already has a JSON artifact, maybeFetchGribData
returns the state unchanged, performing no fetch and no conversion (the
counters are part of the state equality). Second part: after a first call
whose fetch and conversion succeed, an immediate second call changes
nothing, so it invokes neither collaborator. -/
theorem claimC3_ensure_idempotent :
    (∀ (fOk : String → FetchOutcome) (cOk : String → Bool) (now t : Int) (s : PState),
      (getNearestPublishedTimeV1 now t).timestamp ∈ s.json →
      maybeFetchGribData fOk cOk now t s = s) ∧
    (∀ (fOk : String → FetchOutcome) (cOk : String → Bool) (now t : Int) (s : PState),
      fOk (getNearestPublishedTimeV1 now t).timestamp = .ok →
      cOk (getNearestPublishedTimeV1 now t).timestamp = true →
      maybeFetchGribData fOk cOk now t (maybeFetchGribData fOk cOk now t s) =
        maybeFetchGribData fOk cOk now t s) := by
  constructor
  · intro fOk cOk now t s h
    exact maybeFetchCore_warm fOk cOk _ s h
  · intro fOk cOk now t s hf hc
    have hmem : (getNearestPublishedTimeV1 now t).timestamp ∈
        (maybeFetchGribData fOk cOk now t s).json := by
      unfold maybeFetchGribData maybeFetchCore convertGribToJson
      by_cases hj : (getNearestPublishedTimeV1 now t).timestamp ∈ s.json
      · simp [hj]
      · by_cases hg : (getNearestPublishedTimeV1 now t).timestamp ∈ s.grib
        · simp [hj, hg, hc]
        · simp [hj, hg, hf, hc]
    exact maybeFetchCore_warm fOk cOk _ _ hmem

/-- C3 witness: a warm-cache call at 2024-01-05T00:00:00Z is a no-op, and
a second call after a successful first call from the empty cache is a
no-op. -/
theorem claimC3_witness :
    maybeFetchGribData fetchAllOk convAllOk 1704412800000 1704412800000 readyWarm = readyWarm ∧
    maybeFetchGribData fetchAllOk convAllOk 1704412800000 1704412800000
        (maybeFetchGribData fetchAllOk convAllOk 1704412800000 1704412800000 emptyP) =
      maybeFetchGribData fetchAllOk convAllOk 1704412800000 1704412800000 emptyP :=
  ⟨claimC3_ensure_idempotent.1 fetchAllOk convAllOk 1704412800000 1704412800000 readyWarm
      (by decide),
   claimC3_ensure_idempotent.2 fetchAllOk convAllOk 1704412800000 1704412800000 emptyP
      (by decide) (by decide)⟩

/-- C4: eviction with an explicit keep set of cycle identifiers is an
exact set intersection: a cycle record survives deleteOlderData precisely
when it was present before and belongs to the keep set. -/
theorem claimC4_evict_exact_intersection (K : List String) (s : PState) (ts : String) :
    ts ∈ (deleteOlderDataCore (K.map getJsonFilePath) s).json ↔ ts ∈ s.json ∧ ts ∈ K := by
  unfold deleteOlderDataCore
  simp only [List.mem_filter, decide_eq_true_eq, List.mem_map]
  constructor
  · rintro ⟨hmem, a, haK, hEq⟩
    exact ⟨hmem, by rwa [getJsonFilePath_injective hEq] at haK⟩
  · rintro ⟨hmem, hK⟩
    exact ⟨hmem, ts, hK, rfl⟩

/-- C6: when the download reports HTTP 404 for an uncached cycle with no
raw file, the ensure call leaves everything unchanged except one fetch
invocation: the cycle stays absent, the converter is not invoked, there is
no inline retry; and a later scheduler invocation attempts the fetch
again. -/
theorem claimC6_notfound_no_inline_retry (fOk : String → FetchOutcome) (cOk : String → Bool)
    (now t : Int) (s : PState)
    (hj : (getNearestPublishedTimeV1 now t).timestamp ∉ s.json)
    (hg : (getNearestPublishedTimeV1 now t).timestamp ∉ s.grib)
    (hf : fOk (getNearestPublishedTimeV1 now t).timestamp = .notFound) :
    maybeFetchGribData fOk cOk now t s = { s with fetchN := s.fetchN + 1 } ∧
    maybeFetchGribData fOk cOk now t (maybeFetchGribData fOk cOk now t s) =
      { s with fetchN := s.fetchN + 1 + 1 } := by
  have h1 : maybeFetchGribData fOk cOk now t s = { s with fetchN := s.fetchN + 1 } := by
    unfold maybeFetchGribData maybeFetchCore
    rw [if_neg hj, if_neg hg, hf]
  refine ⟨h1, ?_⟩
  rw [h1]
  unfold maybeFetchGribData maybeFetchCore
  rw [if_neg hj, if_neg hg, hf]

/-- C6 witness: from the empty cache at 2024-01-05T00:00:00Z with an
all-404 fetch collaborator. -/
theorem claimC6_witness :
    maybeFetchGribData fetchAll404 convAllOk 1704412800000 1704412800000 emptyP =
      { emptyP with fetchN := emptyP.fetchN + 1 } ∧
    maybeFetchGribData fetchAll404 convAllOk 1704412800000 1704412800000
        (maybeFetchGribData fetchAll404 convAllOk 1704412800000 1704412800000 emptyP) =
      { emptyP with fetchN := emptyP.fetchN + 1 + 1 } :=
  claimC6_notfound_no_inline_retry fetchAll404 convAllOk 1704412800000 1704412800000 emptyP
    (by decide) (by decide) rfl

/-- C7 (amended): whenever a conversion attempt happens for an uncached
cycle, a successful conversion clears the whole grib directory and
publishes the artifact, while a failed conversion leaves the dataset cache
untouched and RETAINS the raw grib data (the source removes raw data only
in the success branch, enabling a convert-only retry on a later tick). -/
theorem claimC7_raw_cleanup (fOk : String → FetchOutcome) (cOk : String → Bool)
    (now t : Int) (s : PState)
    (hj : (getNearestPublishedTimeV1 now t).timestamp ∉ s.json)
    (hattempt : (getNearestPublishedTimeV1 now t).timestamp ∈ s.grib ∨
      fOk (getNearestPublishedTimeV1 now t).timestamp = .ok) :
    (cOk (getNearestPublishedTimeV1 now t).timestamp = true →
      (maybeFetchGribData fOk cOk now t s).grib = [] ∧
      (maybeFetchGribData fOk cOk now t s).json =
        (getNearestPublishedTimeV1 now t).timestamp :: s.json) ∧
    (cOk (getNearestPublishedTimeV1 now t).timestamp = false →
      (maybeFetchGribData fOk cOk now t s).json = s.json ∧
      (∀ x ∈ s.grib, x ∈ (maybeFetchGribData fOk cOk now t s).grib) ∧
      (getNearestPublishedTimeV1 now t).timestamp ∈ (maybeFetchGribData fOk cOk now t s).grib) := by
  by_cases hg : (getNearestPublishedTimeV1 now t).timestamp ∈ s.grib
  · constructor
    · intro hc
      simp [maybeFetchGribData, maybeFetchCore, convertGribToJson, hj, hg, hc]
    · intro hc
      simp only [maybeFetchGribData, maybeFetchCore, convertGribToJson, if_neg hj, if_pos hg, hc]
      simp only [Bool.false_eq_true, if_false]
      exact ⟨by trivial, fun x hx => hx, hg⟩
  · rcases hattempt with hattempt | hf
    · exact absurd hattempt hg
    · constructor
      · intro hc
        simp [maybeFetchGribData, maybeFetchCore, convertGribToJson, hj, hg, hf, hc]
      · intro hc
        simp only [maybeFetchGribData, maybeFetchCore, convertGribToJson, if_neg hj, if_neg hg, hf,
          hc]
        simp only [Bool.false_eq_true, if_false]
        exact ⟨by trivial, fun x hx => List.mem_cons_of_mem _ hx, List.mem_cons_self _ _⟩

/-- C7 witness: a successful conversion of the present raw file for cycle
2024010418 clears the grib directory and publishes the artifact. -/
theorem claimC7_witness :
    (maybeFetchGribData fetchAllOk convAllOk 1704412800000 1704412800000 gribOnlyP).grib = [] ∧
    (maybeFetchGribData fetchAllOk convAllOk 1704412800000 1704412800000 gribOnlyP).json =
      (getNearestPublishedTimeV1 1704412800000 1704412800000).timestamp :: gribOnlyP.json :=
  (claimC7_raw_cleanup fetchAllOk convAllOk 1704412800000 1704412800000 gribOnlyP
    (by decide) (Or.inl (by decide))).1 rfl

/-- C7 counterexample: a failed conversion attempt for cycle 2024010418
completes (the converter counter increments) yet the raw grib data is NOT
discarded, contradicting the unconditional-discard claim. -/
theorem claimC7_counterexample :
    (maybeFetchGribData fetchAllOk convAllFail 1704412800000 1704412800000 gribOnlyP).convN = 1 ∧
    (maybeFetchGribData fetchAllOk convAllFail 1704412800000 1704412800000 gribOnlyP).grib =
      ["2024010418"] := by
  refine ⟨by decide, by decide⟩

/-- One maybeFetchGribData body invokes the fetch collaborator and the
converter at most once each. -/
theorem maybeFetchCore_counters (fOk : String → FetchOutcome) (cOk : String → Bool)
    (ts : String) (s : PState) :
    (maybeFetchCore fOk cOk ts s).fetchN ≤ s.fetchN + 1 ∧
    (maybeFetchCore fOk cOk ts s).convN ≤ s.convN + 1 := by
  by_cases hj : ts ∈ s.json
  · simp [maybeFetchCore, hj]
  · by_cases hg : ts ∈ s.grib
    · by_cases hc : cOk ts <;>
        simp [maybeFetchCore, convertGribToJson, hj, hg, hc]
    · cases hf : fOk ts <;> by_cases hc : cOk ts <;>
        simp [maybeFetchCore, convertGribToJson, hj, hg, hf, hc]

/-- C5 (amended): a periodic scheduler tick runs the pipeline only for the
single cycle resolved at now — at most one fetch and one conversion happen
per tick — and every artifact surviving the tick was already present after
that single ensure step and lies in the five-cycle keep set of the
eviction that follows. -/
theorem claimC5_tick_single_cycle (fOk : String → FetchOutcome) (cOk : String → Bool)
    (now : Int) (s : PState) :
    (schedulerTick fOk cOk now s).fetchN ≤ s.fetchN + 1 ∧
    (schedulerTick fOk cOk now s).convN ≤ s.convN + 1 ∧
    (∀ ts, ts ∈ (schedulerTick fOk cOk now s).json →
      ts ∈ (maybeFetchGribData fOk cOk now now s).json ∧
      getJsonFilePath ts ∈ lastDataCyclesFiles now) := by
  refine ⟨?_, ?_, ?_⟩
  · exact (maybeFetchCore_counters fOk cOk (getNearestPublishedTimeV1 now now).timestamp s).1
  · exact (maybeFetchCore_counters fOk cOk (getNearestPublishedTimeV1 now now).timestamp s).2
  · intro ts hts
    unfold schedulerTick deleteOlderData deleteOlderDataCore at hts
    simp only [List.mem_filter, decide_eq_true_eq] at hts
    exact hts

/-- C5 witness: at 2024-01-05T00:00:00Z from the empty cache, the artifact
surviving the tick is the single resolved cycle 2024010418 and its path is
in the keep list. -/
theorem claimC5_witness :
    "2024010418" ∈
      (maybeFetchGribData fetchAllOk convAllOk 1704412800000 1704412800000 emptyP).json ∧
    getJsonFilePath "2024010418" ∈ lastDataCyclesFiles 1704412800000 :=
  (claimC5_tick_single_cycle fetchAllOk convAllOk 1704412800000 emptyP).2.2 "2024010418"
    (by decide)

/-- C5 counterexample: with every collaborator succeeding and the cache
empty, a tick at 2024-01-05T00:00:00Z performs exactly one fetch and
leaves cycle 2024010412 absent, although that cycle is one of the five
most recent (its path is in the keep list the same tick computes) — the
tick does not ensure the N=5 recent cycles. -/
theorem claimC5_counterexample :
    (schedulerTick fetchAllOk convAllOk 1704412800000 emptyP).fetchN = 1 ∧
    "2024010412" ∉ (schedulerTick fetchAllOk convAllOk 1704412800000 emptyP).json ∧
    getJsonFilePath "2024010412" ∈ lastDataCyclesFiles 1704412800000 := by
  refine ⟨by decide, by decide, by decide⟩

/-- C9 (amended): the express handler behaves as claimed: a missing or
invalid isoTimestamp yields 400 with an error body; a valid timestamp with
no cached artifact for the resolved cycle yields 404 with an error body; a
valid timestamp whose resolved cycle is ready yields 200 with the artifact
data and the canonical YYYYMMDDHH timestamp. -/
theorem claimC9_express_handler_statuses (parse : String → Option Int)
    (content : String → String) (now : Int) (s : PState) (q : Option String) :
    (q.bind parse = none →
      handleGetWindData parse content now s q =
        { status := 400
          body := .errBody
            "Provide a valid isoTimestamp query parameter to get wind forecast data." }) ∧
    (∀ t, q.bind parse = some t →
      (getNearestPublishedTimeV1 now t).timestamp ∉ s.json →
      handleGetWindData parse content now s q =
        { status := 404, body := .errBody "Theres no data for the specified time." }) ∧
    (∀ t, q.bind parse = some t →
      (getNearestPublishedTimeV1 now t).timestamp ∈ s.json →
      handleGetWindData parse content now s q =
        { status := 200
          body := .dataBody (content (getNearestPublishedTimeV1 now t).timestamp)
            (getNearestPublishedTimeV1 now t).timestamp }) := by
  refine ⟨?_, ?_, ?_⟩
  · intro h
    simp [handleGetWindData, h]
  · intro t h hmem
    simp [handleGetWindData, h, hmem]
  · intro t h hmem
    simp [handleGetWindData, h, hmem]

/-- C9 witness: the spec scenario: querying 2024-01-01T05:00:00Z at that
same wall-clock instant with cycle 2024010100 ready yields 200 with the
artifact and the matching timestamp. -/
theorem claimC9_witness :
    handleGetWindData parseIsoScenario contentConst 1704085200000 readyP
        (some "2024-01-01T05:00:00Z") =
      { status := 200, body := .dataBody "winddata" "2024010100" } :=
  (claimC9_express_handler_statuses parseIsoScenario contentConst 1704085200000 readyP
      (some "2024-01-01T05:00:00Z")).2.2 1704085200000 (by decide) (by decide)

/-- C9 counterexample: the second-variant handler writes status 200 even
for a missing isoTimestamp parameter, not the claimed 400. -/
theorem claimC9_counterexample :
    (handleHttpRequest parseIsoScenario contentConst emptyP none).status = 200 ∧
    (handleHttpRequest parseIsoScenario contentConst emptyP none).status ≠ 400 := by
  refine ⟨by decide, by decide⟩

/-- C8 (amended): cache writes are not atomic: the converter writes the
artifact directly at its final path (no temporary location, no rename), so
after the converter has started and before it finishes, a concurrent
exists check reports the artifact present and a read observes a partially
written artifact; only after the final converter step does a read return
the complete artifact. -/
theorem claimC8_direct_write_not_atomic :
    readJson (runSched true true [true, true, true] wOne).sys = .halfWritten ∧
    existsJson (runSched true true [true, true, true] wOne).sys = true ∧
    (runSched true true [true, true, true, true] wOne).sys.json = true ∧
    readJson (runSched true true [true, true, true, true] wOne).sys = .completeView := by
  refine ⟨by decide, by decide, by decide, by decide⟩

/-- C8 counterexample: an explicit interleaving (start, download settles,
converter starts) after which the reader observes the artifact as existing
but only partially written — refuting that a reader only ever sees the
prior state or the complete artifact. -/
theorem claimC8_counterexample :
    existsJson (runSched true true [true, true, true] wOne).sys = true ∧
    readJson (runSched true true [true, true, true] wOne).sys ≠ .completeView ∧
    readJson (runSched true true [true, true, true] wOne).sys ≠ .absent := by
  refine ⟨by decide, by decide, by decide⟩

/-- C10 (amended): no in-memory per-cycle guard exists: two concurrent
ensure calls for the same uncached cycle that both pass the entry check
before any file appears each invoke the fetch collaborator (two fetches,
for every fetch and converter outcome); duplicate work is prevented only
once the artifact file exists, in which case an ensure attempt settles
immediately without fetching. -/
theorem claimC10_no_inflight_guard (fOk cOk : Bool) (s : WSys) :
    (runSched fOk cOk [true, false] wBoth).sys.fetchN = 2 ∧
    stepAttempt fOk cOk .start { s with json := true } =
      (.finished, { s with json := true }) := by
  constructor
  · rfl
  · rfl

/-- C10 counterexample: with both collaborators succeeding, two
simultaneous ensure calls for the same cycle perform two fetch
invocations, not the claimed exactly one. -/
theorem claimC10_counterexample :
    (runSched true true [true, false] wBoth).sys.fetchN = 2 ∧
    (runSched true true [true, false] wBoth).sys.fetchN ≠ 1 := by
  refine ⟨by decide, by decide⟩
